import Mathlib

set_option maxRecDepth 6000

/-!
Verification development for `ebay_auction_generator.py`.

The program reads a multi-document YAML file of auction records, fills a fixed
markdown template per record, converts it to HTML (via the external `markdown2`
and `tidylib` collaborators) and writes one file per record.

The embedding below mirrors the Python source:
* YAML scalar values are modelled by `Yaml` (null, bool, int, string), with
  Python truthiness (`truthy`) and Python string conversion (`pyStr`).
* A parsed YAML mapping is `RawDoc`: each of the seven keys the program reads
  is an `Option Yaml` (`none` = key absent, `some v` = key present with value
  `v`, where `v` may be `Yaml.null`), plus a flag recording whether the mapping
  has any further keys (which only affects the truthiness test `if doc:`).
* The filesystem used for `description_file` reads is a function
  `FS : String -> ReadResult`; `open` inside `Auction.from_yaml` catches only
  `FileNotFoundError`, so the `unreadable` outcome propagates as an exception.
* Exceptions are modelled with `Except`; console prints are collected in
  `List String` log components.
* The external collaborators `markdown2.markdown`, `tidylib.tidy_document`
  and the output-file write are the fields of `Collab`, each allowed to fail.
-/

/-- A YAML scalar value as produced by `yaml.safe_load_all` for the fields the
program reads. -/
inductive Yaml where
  | null
  | bool (b : Bool)
  | int (n : Int)
  | str (s : String)
deriving DecidableEq

/-- Python `str()` / f-string rendering of a `Yaml` value. -/
def pyStr : Yaml → String
  | .null => "None"
  | .bool true => "True"
  | .bool false => "False"
  | .int n => toString n
  | .str s => s

/-- Python truthiness (`bool(v)` / `if v:`) of a `Yaml` value. -/
def truthy : Yaml → Bool
  | .null => false
  | .bool b => b
  | .int n => n != 0
  | .str s => s != ""

/-- Whether a `Yaml` value is a string (used to state the record invariants). -/
def isStrVal : Yaml → Bool
  | .str _ => true
  | _ => false

/-- One parsed YAML mapping.  Each field is `none` when the key is absent and
`some v` when the key is present with value `v` (possibly `Yaml.null`).
`extraKeys` records whether the mapping carries keys beyond the seven the
program reads; it only matters for the `if doc:` truthiness test. -/
structure RawDoc where
  title : Option Yaml := none
  description : Option Yaml := none
  description_file : Option Yaml := none
  override : Option Yaml := none
  photo_1 : Option Yaml := none
  photo_2 : Option Yaml := none
  out_file : Option Yaml := none
  extraKeys : Bool := false
deriving DecidableEq

/-- Result of `open(path).read()` for a given path. -/
inductive ReadResult where
  | ok (contents : String)
  | notFound
  | unreadable (msg : String)
deriving DecidableEq

/-- The filesystem seen by `description_file` reads. -/
abbrev FS := String → ReadResult

/-- Python exceptions that `Auction.from_yaml` can raise. -/
inductive PyErr where
  | keyError (k : String)
  | typeError (m : String)
  | osError (m : String)
deriving DecidableEq

/-- `str(e)` for the exceptions above (a `KeyError` renders as the quoted key). -/
def pyErrMsg : PyErr → String
  | .keyError k => "\x27" ++ k ++ "\x27"
  | .typeError m => m
  | .osError m => m

/-- The `Auction` dataclass.  The Python class annotates `title`, `photo_1`
and `out_file` as `str`, but dataclasses do not enforce annotations, so the
fields hold whatever value `from_yaml` passed; they are therefore modelled as
`Yaml`.  `photo_2` is `data.get('photo_2')`, which yields `None` both for an
absent key and an explicit null; `Yaml.null` models that `None`. -/
structure Auction where
  title : Yaml
  description : Yaml
  override : Bool
  photo_1 : Yaml
  photo_2 : Yaml
  out_file : Yaml
deriving DecidableEq

/-- The placeholder description synthesized when the description file is not
found: `f"You are bidding on: {data['title']}\n\nHappy bidding and thanks for
looking!"`. -/
def placeholder_for (t : Yaml) : String :=
  "You are bidding on: " ++ pyStr t ++ "\n\nHappy bidding and thanks for looking!"

/-- The description-resolution block at the top of `Auction.from_yaml(data)`
(the `data.get('description', '')` line and the `description_file` fallback).
Returns the resolved description value together with the warnings printed, or
the exception raised together with the warnings printed before raising.

Branch by branch, following the source:
* `description = data.get('description', '')`;
* if that value is falsy and `'description_file' in data`, open and read the
  file: on success the contents become the description; on
  `FileNotFoundError` a warning is printed and the placeholder is
  synthesized, which itself raises `KeyError` when `'title'` is absent
  (`data['title']`); any other read error (modelled by
  `ReadResult.unreadable`) is not caught and propagates; a non-string
  `description_file` value makes `open` itself raise (modelled as
  `typeError`);
* the remaining fields use `data.get` defaults: `''` for `title`, `photo_1`,
  `out_file`; `bool(data.get('override', False))` for `override`; bare
  `data.get('photo_2')` (default `None`) for `photo_2`. -/
def resolve_description (fs : FS) (data : RawDoc) : Except (PyErr × List String) (Yaml × List String) :=
  let description := data.description.getD (Yaml.str "")
  if !truthy description && data.description_file.isSome then
    match data.description_file with
    | some (Yaml.str path) =>
        match fs path with
        | .ok contents => .ok (.str contents, [])
        | .notFound =>
            let warn := "Warning: Could not find description file " ++ path
            match data.title with
            | some t => .ok (.str (placeholder_for t), [warn])
            | none => .error (.keyError "title", [warn])
        | .unreadable msg => .error (.osError msg, [])
    | some v => .error (.typeError ("argument should be a str, not " ++ pyStr v), [])
    | none => .ok (description, [])
  else .ok (description, [])

/-- The record assembly at the end of `Auction.from_yaml` (the `cls(...)`
call), applied to the resolved description. -/
def from_yaml (fs : FS) (data : RawDoc) : Except (PyErr × List String) (Auction × List String) :=
  match resolve_description fs data with
  | .error e => .error e
  | .ok (desc, warns) =>
      .ok ({ title := data.title.getD (.str "")
           , description := desc
           , override := truthy (data.override.getD (.bool false))
           , photo_1 := data.photo_1.getD (.str "")
           , photo_2 := data.photo_2.getD .null
           , out_file := data.out_file.getD (.str "") }, warns)

/-- Configuration constants for GitHub image hosting. -/
def GITHUB_USER : String := "rdapaz"

/-- GitHub repository name. -/
def GITHUB_REPO : String := "ebay_listings"

/-- GitHub branch name. -/
def GITHUB_BRANCH : String := "main"

/-- `get_github_raw_url(image_path)`: empty for a falsy path, otherwise the
fixed raw-URL pattern with the path appended. -/
def get_github_raw_url (image_path : Yaml) : String :=
  if truthy image_path then
    "https://raw.githubusercontent.com/" ++ GITHUB_USER ++ "/" ++ GITHUB_REPO ++ "/"
      ++ GITHUB_BRANCH ++ "/artefacts/" ++ pyStr image_path
  else ""

/-- The `<img>` element built for one picture inside `generate_image_html`:
`f'<img src="{get_github_raw_url(pic)}" alt="{pic}">'`. -/
def image_tag (pic : Yaml) : String :=
  "<img src=\"" ++ get_github_raw_url pic ++ "\" alt=\"" ++ pyStr pic ++ "\">"

/-- The list `images` built by `generate_image_html` before joining: one entry
for `pic1` (the tag if truthy, else the empty string), plus a tag for `pic2`
when truthy. -/
def image_entries (pic1 pic2 : Yaml) : List String :=
  (if truthy pic1 then [image_tag pic1] else [""])
    ++ (if truthy pic2 then [image_tag pic2] else [])

/-- `generate_image_html(pic1, pic2)`: the entries joined with `"\n"`. -/
def generate_image_html (pic1 pic2 : Yaml) : String :=
  String.intercalate "\n" (image_entries pic1 pic2)

/-- The expedited-shipping clause chosen when `auction.override` is true. -/
def EXPEDITED_TEXT : String :=
  "This item will be delivered by Express Post. If you live in Perth you can also pick it up. Postage and Handling Costs: $15.00"

/-- The pickup-only clause chosen when `auction.override` is false. -/
def PICKUP_TEXT : String :=
  "Not applicable: pick up in Bibra Lake only"

/-- The `postage` selection at the top of `generate_html`. -/
def postage_text (override : Bool) : String :=
  if override then EXPEDITED_TEXT else PICKUP_TEXT

/-- `TEMPLATE_MD` split at its four placeholders.  `T0` is the text before
`{title}`. -/
def T0 : String := "\n# "

/-- Template text between `{title}` and `{images}`. -/
def T1 : String := "\n\n<div class=\"images-container\">\n"

/-- Template text between `{images}` and `{description}`. -/
def T2 : String := "\n</div>\n\n"

/-- Template text between `{description}` and `{postage}`. -/
def T3 : String :=
  "\n\n## Payment Policy\n\n* Paypal is preferred\n* Direct Bank Deposit is also good!\n* Item will be shipped immediately on the same or next business day of receiving full payment\n\n## Shipping Policy\n\nPlease note that it may take up to 7 days for shipping as we reserve the right for your payment to clear prior to shipping the goods.\n\nThe following freight charges are applicable:\n\n* "

/-- First segment of the template text after `{postage}` (the slab is kept as
three segments so that the finite substring checks below stay small). -/
def T4a : String :=
  "\n\n## Returns Policy\n\nNo exchange or warranty is offered on these goods but we will make every effort to ensure that you get the item in the same condition as it left our premises.\n\n## Terms & Conditions\n\n"

/-- Second segment of the template text after `{postage}`. -/
def T4b : String :=
  "By bidding on this item you are offering to enter into a contract with the seller. The winning bidder will enter a contract of sale between themselves and the seller only. We reserve the right not to ship the item until the payment has been received in full and has cleared, and will cancel the sale if full payment is not received within 7 days of the auction ending."

/-- Third segment of the template text after `{postage}`. -/
def T4c : String :=
  "\n\n## About Us\n\nWe are just getting rid of some of our toys to make room for new toys. We love our toys and take good care of them. We hope you will find something that you like. Thanks for looking!\n"

/-- Template text after `{postage}`. -/
def T4 : String := T4a ++ T4b ++ T4c

/-- `TEMPLATE_MD.format(title=..., images=..., description=..., postage=...)`
inside `generate_html`: the markdown document handed to `markdown2`.
`str.format` renders non-string field values with `str()` (`pyStr`). -/
def markdown_content (a : Auction) : String :=
  T0 ++ pyStr a.title ++ T1 ++ generate_image_html a.photo_1 a.photo_2 ++ T2
    ++ pyStr a.description ++ T3 ++ postage_text a.override ++ T4

/-- The fixed CSS stylesheet `MODERN_CSS` embedded in every document. -/
def MODERN_CSS : String :=
  "\n:root \x7b\n    --primary-color: #2d3748;\n    --secondary-color: #4a5568;\n    --accent-color: #3182ce;\n    --background-color: #ffffff;\n    --text-color: #4a5568;\n    --border-color: #e2e8f0;\n\x7d\n\nbody \x7b\n    font-family: -apple-system, BlinkMacSystemFont, \"Segoe UI\", Roboto, \"Helvetica Neue\", Arial, sans-serif;\n    line-height: 1.6;\n    color: var(--text-color);\n    max-width: 800px;\n    margin: 0 auto;\n    padding: 2rem;\n    background: var(--background-color);\n\x7d\n\nh1, h2 \x7b\n    color: var(--primary-color);\n    margin-top: 2rem;\n    margin-bottom: 1rem;\n    font-weight: 600;\n\x7d\n\nh1 \x7b\n    font-size: 2rem;\n    border-bottom: 2px solid var(--border-color);\n    padding-bottom: 0.5rem;\n\x7d\n\nh2 \x7b\n    font-size: 1.5rem;\n\x7d\n\n.images-container \x7b\n    display: flex;\n    gap: 1rem;\n    flex-wrap: wrap;\n    justify-content: center;\n    margin: 2rem 0;\n    padding: 1rem;\n    background: var(--border-color);\n    border-radius: 0.5rem;\n\x7d\n\n.images-container img \x7b\n    max-width: 100%;\n    height: auto;\n    border-radius: 0.25rem;\n    box-shadow: 0 1px 3px rgba(0, 0, 0, 0.1);\n\x7d\n\nul \x7b\n    list-style-type: disc;\n    margin-left: 1.5rem;\n    margin-bottom: 1.5rem;\n\x7d\n\nli \x7b\n    margin-bottom: 0.5rem;\n\x7d\n\np \x7b\n    margin-bottom: 1rem;\n\x7d\n\n.shipping-info \x7b\n    background-color: #f7fafc;\n    border-left: 4px solid var(--accent-color);\n    padding: 1rem;\n    margin: 1rem 0;\n    border-radius: 0.25rem;\n\x7d\n\n@media (max-width: 640px) \x7b\n    body \x7b\n        padding: 1rem;\n    \x7d\n\n    .images-container \x7b\n        flex-direction: column;\n    \x7d\n\x7d\n"

/-- The f-string `full_html` inside `generate_html`: the HTML shell wrapped
around the converted markdown fragment. -/
def html_shell (title content_html : String) : String :=
  "\n    <!DOCTYPE html>\n    <html lang=\"en\">\n    <head>\n        <meta charset=\"UTF-8\">\n        <meta name=\"viewport\" content=\"width=device-width, initial-scale=1.0\">\n        <title>"
    ++ title
    ++ " - eBay Listing</title>\n        <style>\n        "
    ++ MODERN_CSS
    ++ "\n        </style>\n    </head>\n    <body>\n        "
    ++ content_html
    ++ "\n    </body>\n    </html>\n    "

/-- The external collaborators used per record: `markdown2.markdown`,
`tidylib.tidy_document` (returning the tidied document and an error/warning
string) and the output-file write.  Each may raise, modelled with `Except`. -/
structure Collab where
  markdown : String → Except String String
  tidy : String → Except String (String × String)
  write : String → String → Except String Unit

/-- `generate_html(auction)`, with the collaborators abstracted: fill the
template, convert to HTML, wrap in the shell, tidy.  Returns the tidied
document and the lines printed (the tidy warnings print when the `errors`
string is non-empty). -/
def generate_html (c : Collab) (a : Auction) : Except String (String × List String) :=
  match c.markdown (markdown_content a) with
  | .error e => .error e
  | .ok content_html =>
      match c.tidy (html_shell (pyStr a.title) content_html) with
      | .error e => .error e
      | .ok (document, errors) =>
          .ok (document,
            if errors = "" then []
            else ["HTML Tidy reported warnings/errors:\n" ++ errors])

/-- `str(Path(output_dir) / out_file)` for the paths this program builds. -/
def joinPath (dir f : String) : String :=
  if f = "" then dir else if f.front = '/' then f else dir ++ "/" ++ f

/-- The Python type name of a `Yaml` value, as it appears in `TypeError`
messages. -/
def pyTypeName : Yaml → String
  | .null => "NoneType"
  | .bool _ => "bool"
  | .int _ => "int"
  | .str _ => "str"

/-- The observable outcome of the output loop (and of `main`): the files
written, the lines printed, and — when an uncaught exception escaped the
loop — its message (`none` when the run completed normally). -/
structure RunOutcome where
  written : List (String × String)
  log : List String
  crash : Option String
deriving DecidableEq

/-- One iteration of the output loop in `main`.  The path computation
`output_file = output_dir / auction.out_file` (line 274) sits OUTSIDE the
`try`: for a non-string `out_file` value, `Path.__truediv__` raises an
uncaught `TypeError` — the `.error` result — which aborts the whole loop.
For a string `out_file` the body runs under `try`: generate the HTML and
write it (logging the success line), and on any exception log the error with
the offending path and carry on; the `.ok` result carries the files written
and the lines printed. -/
def process_auction (c : Collab) (output_dir : String) (a : Auction) :
    Except String (List (String × String) × List String) :=
  match a.out_file with
  | .str f =>
      let output_file := joinPath output_dir f
      .ok (match generate_html c a with
        | .error e => ([], ["Error writing output file " ++ output_file ++ ": " ++ e])
        | .ok (html, tlog) =>
            match c.write output_file html with
            | .error e =>
                ([], tlog ++ ["Error writing output file " ++ output_file ++ ": " ++ e])
            | .ok _ =>
                ([(output_file, html)], tlog ++ ["Generated auction HTML: " ++ output_file]))
  | v =>
      .error ("unsupported operand type(s) for /: \x27PosixPath\x27 and \x27"
        ++ pyTypeName v ++ "\x27")

/-- The output loop of `main` over the constructed records, in input order.
An uncaught `TypeError` from one record's path computation aborts the loop:
files already written persist, the remaining records are not processed, and
the exception escapes `main`. -/
def process_all (c : Collab) (output_dir : String) : List Auction → RunOutcome
  | [] => ⟨[], [], none⟩
  | a :: rest =>
      match process_auction c output_dir a with
      | .error e => ⟨[], [], some e⟩
      | .ok (w, l) =>
          let next := process_all c output_dir rest
          ⟨w ++ next.written, l ++ next.log, next.crash⟩

/-- One document as yielded by `yaml.safe_load_all`: a falsy document (`None`,
`{}`, and other falsy values, skipped by `if doc:`), a truthy non-mapping
(on which `data.get` raises `AttributeError`; `m` is the `str(e)` text), or a
mapping. -/
inductive YamlDoc where
  | empty
  | nonMapping (m : String)
  | mapping (d : RawDoc)

/-- Python truthiness of a parsed mapping (`if doc:`): non-empty. -/
def dictTruthy (d : RawDoc) : Bool :=
  d.title.isSome || d.description.isSome || d.description_file.isSome
    || d.override.isSome || d.photo_1.isSome || d.photo_2.isSome
    || d.out_file.isSome || d.extraKeys

/-- Processing of one YAML document inside `parse_auctions_file`: skip falsy
documents, otherwise attempt `Auction.from_yaml` and on any exception log
`Error parsing auction entry: ...` and continue.  Returns the records
produced (zero or one) and the lines printed. -/
def parse_one (fs : FS) : YamlDoc → List Auction × List String
  | .empty => ([], [])
  | .nonMapping m => ([], ["Error parsing auction entry: " ++ m])
  | .mapping d =>
      if dictTruthy d then
        match from_yaml fs d with
        | .ok (a, warns) => ([a], warns)
        | .error (e, warns) => ([], warns ++ ["Error parsing auction entry: " ++ pyErrMsg e])
      else ([], [])

/-- `parse_auctions_file`, given the documents the YAML collaborator yielded:
the per-document loop with its per-entry try/except. -/
def parse_auctions_file (fs : FS) : List YamlDoc → List Auction × List String
  | [] => ([], [])
  | doc :: rest =>
      let step := parse_one fs doc
      let next := parse_auctions_file fs rest
      (step.1 ++ next.1, step.2 ++ next.2)

/-- The outcome of opening and YAML-parsing the input file in `main`:
the parsed documents, `FileNotFoundError`, or any other exception
(e.g. an unreadable file, or a YAML syntax error raised by the external
parser while `list(yaml.safe_load_all(f))` consumes the stream). -/
inductive FileOpen where
  | ok (docs : List YamlDoc)
  | notFound
  | otherError (m : String)

/-- The `main` function of the program, after argument parsing (the name
`main` itself is reserved in Lean): on an input-file error print the message
and return with nothing written; otherwise build the records and run the
output loop.  Returns the files written and the lines printed. -/
def main_run (fs : FS) (c : Collab) (auctions_file output_dir : String) (opened : FileOpen) :
    RunOutcome :=
  match opened with
  | .notFound =>
      ⟨[], ["Error: Auctions data file \x27" ++ auctions_file ++ "\x27 not found"], none⟩
  | .otherError m => ⟨[], ["Error reading auctions file: " ++ m], none⟩
  | .ok docs =>
      let parsed := parse_auctions_file fs docs
      let looped := process_all c output_dir parsed.1
      ⟨looped.written, parsed.2 ++ looped.log, looped.crash⟩

/-- `pat` occurs as a contiguous substring of `s`. -/
abbrev strContains (s pat : String) : Prop := pat.data <:+: s.data

/-- No non-empty suffix of `t` is a prefix of `p`: an occurrence of `p` can
never start strictly inside `t` and continue past its right end. -/
abbrev noMidOverlap (t p : List Char) : Prop := ∀ s ∈ t.tails, s <+: p → s = []

/-- The fixed text of `image_tag` before the first picture interpolation: the
`<img>` opening together with the constant raw-URL prefix (the configuration
constants substituted). -/
def IMG_A : String :=
  "<img src=\"https://raw.githubusercontent.com/rdapaz/ebay_listings/main/artefacts/"

/-- The fixed text of `image_tag` between the two picture interpolations. -/
def IMG_B : String := "\" alt=\""

/-- The fixed text of `image_tag` after the second picture interpolation. -/
def IMG_C : String := "\">"

/-! ### Concrete fixtures used by witnesses and counterexamples -/

/-- A filesystem on which every open raises `FileNotFoundError`. -/
def fsNone : FS := fun _ => ReadResult.notFound

/-- A filesystem on which every open raises a `PermissionError`. -/
def fsDenied : FS := fun _ => ReadResult.unreadable "[Errno 13] Permission denied: \x27desc.txt\x27"

/-- Collaborators that never fail: markdown conversion and tidy are identity,
writes succeed, tidy reports no warnings. -/
def collabOk : Collab :=
  { markdown := fun s => .ok s
  , tidy := fun s => .ok (s, "")
  , write := fun _ _ => .ok () }

/-- Collaborators whose write fails exactly on the path `out/fail.html`. -/
def collabFailWrite : Collab :=
  { markdown := fun _ => .ok ""
  , tidy := fun s => .ok (s, "")
  , write := fun p _ => if p = "out/fail.html" then .error "disk full" else .ok () }

/-- A record carrying the pickup clause as its primary image path, with the
shipping override set. -/
def auctionClauseInPhoto : Auction :=
  { title := .str "", description := .str "", override := true
  , photo_1 := .str PICKUP_TEXT, photo_2 := .null, out_file := .str "" }

/-- An ordinary record with the shipping override set. -/
def auctionBook : Auction :=
  { title := .str "Book", description := .str "A great read.", override := true
  , photo_1 := .str "lego1.jpg", photo_2 := .null, out_file := .str "book.html" }

/-- A mapping with only a title key. -/
def docTitleOnly : RawDoc := { title := some (.str "X") }

/-- A mapping with no inline description, a description-file reference and a
title. -/
def docWithFile : RawDoc :=
  { title := some (.str "Lego Set"), description_file := some (.str "desc.txt")
  , out_file := some (.str "lego.html") }

/-- A mapping whose title key is present but explicitly null. -/
def docNullTitle : RawDoc := { title := some Yaml.null }

/-- A well-formed mapping with string values. -/
def docBook : RawDoc :=
  { title := some (.str "Book"), description := some (.str "A great read.")
  , override := some (.bool true), out_file := some (.str "book.html") }

/-- A truthy YAML document that is not a mapping, with the
`str(AttributeError)` text produced when `data.get` is called on it. -/
def docScalar : YamlDoc :=
  .nonMapping "\x27str\x27 object has no attribute \x27get\x27"

/-- The record `from_yaml` constructs from `docBook`. -/
def auctionOfBook : Auction :=
  { title := .str "Book", description := .str "A great read.", override := true
  , photo_1 := .str "", photo_2 := .null, out_file := .str "book.html" }

/-- The all-defaults record built from the empty mapping. -/
def auctionDefaults : Auction :=
  { title := .str "", description := .str "", override := false
  , photo_1 := .str "", photo_2 := .null, out_file := .str "" }

/-- A record whose output writes fine (output path `out/a.html`). -/
def auctionOk1 : Auction :=
  { title := .str "A", description := .str "a", override := false
  , photo_1 := .str "", photo_2 := .null, out_file := .str "a.html" }

/-- A second record whose output writes fine (output path `out/b.html`). -/
def auctionOk2 : Auction :=
  { title := .str "B", description := .str "b", override := false
  , photo_1 := .str "", photo_2 := .null, out_file := .str "fine.html" }

/-- A record whose output path is the one `collabFailWrite` rejects. -/
def auctionFail : Auction :=
  { title := .str "F", description := .str "f", override := false
  , photo_1 := .str "", photo_2 := .null, out_file := .str "fail.html" }

/-! ### Substring machinery

An occurrence of `p` inside `x ++ y` lies in `x`, lies in `y`, or straddles
the boundary.  The two `step` lemmas below peel pieces off the front of a
concatenation when the straddling case is impossible. -/

theorem isInfixAppendSplit {α : Type} {p x y : List α} (h : p <:+: x ++ y) :
    p <:+: x ∨ p <:+: y ∨
      ∃ p₁ p₂, p = p₁ ++ p₂ ∧ p₁ ≠ [] ∧ p₂ ≠ [] ∧ p₁ <:+ x ∧ p₂ <+: y := by
  obtain ⟨s, t, hst⟩ := h
  rcases List.append_eq_append_iff.mp hst with ⟨u, hx, hu⟩ | ⟨u, hs, hy⟩
  · exact Or.inl ⟨s, u, hx.symm⟩
  · rcases List.append_eq_append_iff.mp hs with ⟨v, hxv, hp⟩ | ⟨v, hsv, hu2⟩
    · rcases eq_or_ne v [] with hv0 | hv0
      · subst hv0
        simp only [List.nil_append] at hp
        subst hp
        exact Or.inr (Or.inl (List.IsPrefix.isInfix ⟨t, hy.symm⟩))
      · rcases eq_or_ne u [] with hu0 | hu0
        · subst hu0
          rw [List.append_nil] at hp
          subst hp
          exact Or.inl (List.IsSuffix.isInfix ⟨s, hxv.symm⟩)
        · exact Or.inr (Or.inr ⟨v, u, hp, hv0, hu0, ⟨s, hxv.symm⟩, ⟨t, hy.symm⟩⟩)
    · exact Or.inr (Or.inl ⟨v, t, by rw [hy, hu2]⟩)

theorem stepFixed {p t y : List Char} (h1 : ¬ p <:+: t) (h2 : noMidOverlap t p)
    (h : p <:+: t ++ y) : p <:+: y := by
  rcases isInfixAppendSplit h with h' | h' | ⟨p₁, p₂, hp, hp₁, _, hsuf, _⟩
  · exact absurd h' h1
  · exact h'
  · exact absurd (h2 p₁ ((List.mem_tails p₁ t).mpr hsuf) ⟨p₂, hp.symm⟩) hp₁

theorem stepHead {p x y : List Char} {c : Char} (hc : c ∉ p)
    (hx : ¬ p <:+: x) (h : p <:+: x ++ y) (hy : y.head? = some c) : p <:+: y := by
  rcases isInfixAppendSplit h with h' | h' | ⟨p₁, p₂, hp, _, hp₂, _, hpre⟩
  · exact absurd h' hx
  · exact h'
  · exfalso
    rcases p₂ with _ | ⟨b, bs⟩
    · exact hp₂ rfl
    · obtain ⟨u, hu⟩ := hpre
      rw [← hu] at hy
      simp only [List.cons_append, List.head?_cons, Option.some.injEq] at hy
      apply hc
      rw [hp, hy]
      simp

theorem isInfixGrowLeft {α : Type} {p y : List α} (x : List α) (h : p <:+: y) :
    p <:+: x ++ y := by
  obtain ⟨s, t, hst⟩ := h
  exact ⟨x ++ s, t, by rw [← hst]; simp⟩

theorem isInfixGrowRight {α : Type} {p x : List α} (y : List α) (h : p <:+: x) :
    p <:+: x ++ y := by
  obtain ⟨s, t, hst⟩ := h
  exact ⟨s, t ++ y, by rw [← hst]; simp⟩

theorem notInfixSingleton {p : List Char} {c : Char} (hne : p ≠ []) (hc : c ∉ p) :
    ¬ p <:+: [c] := by
  intro h
  rcases p with _ | ⟨a, l⟩
  · exact hne rfl
  · have ha : a ∈ [c] := h.subset (List.mem_cons_self a l)
    simp only [List.mem_singleton] at ha
    subst ha
    exact hc (List.mem_cons_self a l)

theorem noMidOverlapSingleton {p : List Char} {c : Char} (hc : c ∉ p) :
    noMidOverlap [c] p := by
  intro s hs hsp
  have hsuf : s <:+ [c] := (List.mem_tails s [c]).mp hs
  rcases s with _ | ⟨b, bs⟩
  · rfl
  · exfalso
    obtain ⟨u, hu⟩ := hsuf
    rcases u with _ | ⟨a, u'⟩
    · simp only [List.nil_append, List.cons.injEq] at hu
      apply hc
      rw [← hu.1]
      exact hsp.subset (List.mem_cons_self b bs)
    · simp only [List.cons_append, List.cons.injEq] at hu
      exact absurd hu.2 (by simp)

theorem isInfixRefl {α : Type} (l : List α) : l <:+: l := ⟨[], [], by simp⟩

theorem isInfixNilEq {α : Type} {p : List α} (h : p <:+: ([] : List α)) : p = [] := by
  obtain ⟨s, t, hst⟩ := h
  rcases List.append_eq_nil.mp hst with ⟨hsp, _⟩
  exact (List.append_eq_nil.mp hsp).2

/-! ### Shape of the generated markdown -/

theorem markdown_content_data (a : Auction) :
    (markdown_content a).data =
      T0.data ++ ((pyStr a.title).data ++ (T1.data ++
        ((generate_image_html a.photo_1 a.photo_2).data ++ (T2.data ++
          ((pyStr a.description).data ++ (T3.data ++
            ((postage_text a.override).data ++ T4.data))))))) := by
  simp only [markdown_content, String.data_append, List.append_assoc]

theorem image_tag_data {p : Yaml} (htr : truthy p = true) :
    (image_tag p).data =
      IMG_A.data ++ ((pyStr p).data ++ (IMG_B.data ++ ((pyStr p).data ++ IMG_C.data))) := by
  unfold image_tag get_github_raw_url
  rw [if_pos htr]
  simp only [String.data_append, List.append_assoc]
  rfl

theorem generate_image_html_neither {p1 p2 : Yaml}
    (h1 : truthy p1 = false) (h2 : truthy p2 = false) :
    generate_image_html p1 p2 = "" := by
  unfold generate_image_html image_entries
  rw [if_neg (by rw [h1]; simp), if_neg (by rw [h2]; simp)]
  rfl

theorem generate_image_html_first {p1 p2 : Yaml}
    (h1 : truthy p1 = true) (h2 : truthy p2 = false) :
    generate_image_html p1 p2 = image_tag p1 := by
  unfold generate_image_html image_entries
  rw [if_pos h1, if_neg (by rw [h2]; simp)]
  rfl

theorem generate_image_html_second {p1 p2 : Yaml}
    (h1 : truthy p1 = false) (h2 : truthy p2 = true) :
    generate_image_html p1 p2 = "" ++ "\n" ++ image_tag p2 := by
  unfold generate_image_html image_entries
  rw [if_neg (by rw [h1]; simp), if_pos h2]
  rfl

theorem generate_image_html_both {p1 p2 : Yaml}
    (h1 : truthy p1 = true) (h2 : truthy p2 = true) :
    generate_image_html p1 p2 = image_tag p1 ++ "\n" ++ image_tag p2 := by
  unfold generate_image_html image_entries
  rw [if_pos h1, if_pos h2]
  rfl

/-! ### A clause-free record yields clause-free image markup -/

theorem clauseNotInTag {C : String} {p : Yaml} (hq : ('"' : Char) ∉ C.data)
    (hIAi : ¬ C.data <:+: IMG_A.data) (hIAt : noMidOverlap IMG_A.data C.data)
    (hIBi : ¬ C.data <:+: IMG_B.data) (hIBt : noMidOverlap IMG_B.data C.data)
    (hICi : ¬ C.data <:+: IMG_C.data)
    (htr : truthy p = true)
    (hp : ¬ C.data <:+: (pyStr p).data) :
    ¬ C.data <:+: (image_tag p).data := by
  intro h
  rw [image_tag_data htr] at h
  have h1 := stepFixed hIAi hIAt h
  have h2 := stepHead hq hp h1 rfl
  have h3 := stepFixed hIBi hIBt h2
  have h4 := stepHead hq hp h3 rfl
  exact hICi h4

theorem clauseNotInImages {C : String} {p1 p2 : Yaml}
    (hne : C.data ≠ []) (hnl : ('\n' : Char) ∉ C.data) (hq : ('"' : Char) ∉ C.data)
    (hIAi : ¬ C.data <:+: IMG_A.data) (hIAt : noMidOverlap IMG_A.data C.data)
    (hIBi : ¬ C.data <:+: IMG_B.data) (hIBt : noMidOverlap IMG_B.data C.data)
    (hICi : ¬ C.data <:+: IMG_C.data)
    (hp1 : ¬ C.data <:+: (pyStr p1).data) (hp2 : ¬ C.data <:+: (pyStr p2).data) :
    ¬ C.data <:+: (generate_image_html p1 p2).data := by
  intro h
  cases htr1 : truthy p1 <;> cases htr2 : truthy p2
  · rw [generate_image_html_neither htr1 htr2] at h
    exact hne (isInfixNilEq h)
  · rw [generate_image_html_second htr1 htr2] at h
    have hd : ("" ++ "\n" ++ image_tag p2).data = ['\n'] ++ (image_tag p2).data := by
      simp only [String.data_append, List.append_assoc]
      rfl
    rw [hd] at h
    have h1 := stepFixed (notInfixSingleton hne hnl) (noMidOverlapSingleton hnl) h
    exact clauseNotInTag hq hIAi hIAt hIBi hIBt hICi htr2 hp2 h1
  · rw [generate_image_html_first htr1 htr2] at h
    exact clauseNotInTag hq hIAi hIAt hIBi hIBt hICi htr1 hp1 h
  · rw [generate_image_html_both htr1 htr2] at h
    have hd : (image_tag p1 ++ "\n" ++ image_tag p2).data =
        (image_tag p1).data ++ (['\n'] ++ (image_tag p2).data) := by
      simp only [String.data_append, List.append_assoc]
    rw [hd] at h
    have h1 := stepHead hnl
      (clauseNotInTag hq hIAi hIAt hIBi hIBt hICi htr1 hp1) h rfl
    have h2 := stepFixed (notInfixSingleton hne hnl) (noMidOverlapSingleton hnl) h1
    exact clauseNotInTag hq hIAi hIAt hIBi hIBt hICi htr2 hp2 h2

/-! ### A clause-free record yields markup containing no spurious clause -/

theorem clauseNotInMarkdown {C : String} {a : Auction}
    (hne : C.data ≠ []) (hnl : ('\n' : Char) ∉ C.data) (hq : ('"' : Char) ∉ C.data)
    (hT0i : ¬ C.data <:+: T0.data) (hT0t : noMidOverlap T0.data C.data)
    (hT1i : ¬ C.data <:+: T1.data) (hT1t : noMidOverlap T1.data C.data)
    (hT2i : ¬ C.data <:+: T2.data) (hT2t : noMidOverlap T2.data C.data)
    (hT3i : ¬ C.data <:+: T3.data) (hT3t : noMidOverlap T3.data C.data)
    (hT4ai : ¬ C.data <:+: T4a.data) (hT4at : noMidOverlap T4a.data C.data)
    (hT4bi : ¬ C.data <:+: T4b.data) (hT4bt : noMidOverlap T4b.data C.data)
    (hT4ci : ¬ C.data <:+: T4c.data)
    (hIAi : ¬ C.data <:+: IMG_A.data) (hIAt : noMidOverlap IMG_A.data C.data)
    (hIBi : ¬ C.data <:+: IMG_B.data) (hIBt : noMidOverlap IMG_B.data C.data)
    (hICi : ¬ C.data <:+: IMG_C.data)
    (hPost : ¬ C.data <:+: (postage_text a.override).data)
    (htitle : ¬ C.data <:+: (pyStr a.title).data)
    (hdesc : ¬ C.data <:+: (pyStr a.description).data)
    (hp1 : ¬ C.data <:+: (pyStr a.photo_1).data)
    (hp2 : ¬ C.data <:+: (pyStr a.photo_2).data) :
    ¬ C.data <:+: (markdown_content a).data := by
  intro h
  rw [markdown_content_data] at h
  have h1 := stepFixed hT0i hT0t h
  have h2 := stepHead hnl htitle h1 rfl
  have h3 := stepFixed hT1i hT1t h2
  have h4 := stepHead hnl
    (clauseNotInImages hne hnl hq hIAi hIAt hIBi hIBt hICi hp1 hp2) h3 rfl
  have h5 := stepFixed hT2i hT2t h4
  have h6 := stepHead hnl hdesc h5 rfl
  have h7 := stepFixed hT3i hT3t h6
  have h8 := stepHead hnl hPost h7 rfl
  rw [show T4.data = T4a.data ++ (T4b.data ++ T4c.data) by
        simp only [T4, String.data_append, List.append_assoc]] at h8
  have h9 := stepFixed hT4ai hT4at h8
  have h10 := stepFixed hT4bi hT4bt h9
  exact hT4ci h10

/-! ### The postage slot occurs in the markup -/

theorem postageInMarkdown (a : Auction) :
    (postage_text a.override).data <:+: (markdown_content a).data := by
  rw [markdown_content_data]
  apply isInfixGrowLeft
  apply isInfixGrowLeft
  apply isInfixGrowLeft
  apply isInfixGrowLeft
  apply isInfixGrowLeft
  apply isInfixGrowLeft
  apply isInfixGrowLeft
  exact isInfixGrowRight _ (isInfixRefl _)

/-- Claim C1, counterexample: the record `auctionClauseInPhoto` has override
set and empty title and description (so neither contains either clause), yet
its rendered markup contains BOTH shipping clauses, because the pickup clause
rides in through the primary image path.  "Exactly one of the two clauses
occurs" therefore fails as stated. -/
theorem C1_counterexample :
    ¬ strContains (pyStr auctionClauseInPhoto.title) PICKUP_TEXT ∧
    ¬ strContains (pyStr auctionClauseInPhoto.title) EXPEDITED_TEXT ∧
    ¬ strContains (pyStr auctionClauseInPhoto.description) PICKUP_TEXT ∧
    ¬ strContains (pyStr auctionClauseInPhoto.description) EXPEDITED_TEXT ∧
    strContains (markdown_content auctionClauseInPhoto) EXPEDITED_TEXT ∧
    strContains (markdown_content auctionClauseInPhoto) PICKUP_TEXT := by
  refine ⟨by decide, by decide, by decide, by decide, ?_, ?_⟩
  · exact postageInMarkdown auctionClauseInPhoto
  · show PICKUP_TEXT.data <:+: (markdown_content auctionClauseInPhoto).data
    rw [markdown_content_data]
    apply isInfixGrowLeft
    apply isInfixGrowLeft
    apply isInfixGrowLeft
    apply isInfixGrowRight
    rw [generate_image_html_first (by decide) (by decide),
      image_tag_data (by decide)]
    apply isInfixGrowLeft
    exact isInfixGrowRight _ (isInfixRefl _)

/-- Claim C1 (amended): for every record none of whose rendered title,
description or image-path fields contain either shipping clause, the rendered
markup contains the expedited clause (and its fixed "$15.00" handling-fee
string) and not the pickup clause when `override` is true, and contains the
pickup clause and not the expedited clause when `override` is false — the two
clauses are mutually exclusive in the output. -/
theorem C1_amended (a : Auction)
    (ht1 : ¬ strContains (pyStr a.title) PICKUP_TEXT)
    (ht2 : ¬ strContains (pyStr a.title) EXPEDITED_TEXT)
    (hd1 : ¬ strContains (pyStr a.description) PICKUP_TEXT)
    (hd2 : ¬ strContains (pyStr a.description) EXPEDITED_TEXT)
    (hq1 : ¬ strContains (pyStr a.photo_1) PICKUP_TEXT)
    (hq2 : ¬ strContains (pyStr a.photo_1) EXPEDITED_TEXT)
    (hr1 : ¬ strContains (pyStr a.photo_2) PICKUP_TEXT)
    (hr2 : ¬ strContains (pyStr a.photo_2) EXPEDITED_TEXT) :
    (a.override = true →
      strContains (markdown_content a) "$15.00" ∧
      strContains (markdown_content a) EXPEDITED_TEXT ∧
      ¬ strContains (markdown_content a) PICKUP_TEXT) ∧
    (a.override = false →
      strContains (markdown_content a) PICKUP_TEXT ∧
      ¬ strContains (markdown_content a) EXPEDITED_TEXT) := by
  constructor
  · intro hov
    have hpost : postage_text a.override = EXPEDITED_TEXT := by rw [hov]; rfl
    refine ⟨?_, ?_, ?_⟩
    · have h := postageInMarkdown a
      rw [hpost] at h
      exact List.IsInfix.trans (by decide) h
    · have h := postageInMarkdown a
      rw [hpost] at h
      exact h
    · exact clauseNotInMarkdown (by decide) (by decide) (by decide)
        (by decide) (by decide) (by decide) (by decide) (by decide) (by decide)
        (by decide) (by decide) (by decide) (by decide) (by decide) (by decide)
        (by decide) (by decide) (by decide) (by decide) (by decide) (by decide)
        (by rw [hpost]; decide) ht1 hd1 hq1 hr1
  · intro hov
    have hpost : postage_text a.override = PICKUP_TEXT := by rw [hov]; rfl
    constructor
    · have h := postageInMarkdown a
      rw [hpost] at h
      exact h
    · exact clauseNotInMarkdown (by decide) (by decide) (by decide)
        (by decide) (by decide) (by decide) (by decide) (by decide) (by decide)
        (by decide) (by decide) (by decide) (by decide) (by decide) (by decide)
        (by decide) (by decide) (by decide) (by decide) (by decide) (by decide)
        (by rw [hpost]; decide) ht2 hd2 hq2 hr2

/-- Claim C1 witness: the amended theorem applied to the concrete record
`auctionBook` (override set, all fields free of both clauses). -/
theorem C1_amended_witness :
    (auctionBook.override = true →
      strContains (markdown_content auctionBook) "$15.00" ∧
      strContains (markdown_content auctionBook) EXPEDITED_TEXT ∧
      ¬ strContains (markdown_content auctionBook) PICKUP_TEXT) ∧
    (auctionBook.override = false →
      strContains (markdown_content auctionBook) PICKUP_TEXT ∧
      ¬ strContains (markdown_content auctionBook) EXPEDITED_TEXT) :=
  C1_amended auctionBook (by decide) (by decide) (by decide) (by decide)
    (by decide) (by decide) (by decide) (by decide)

/-! ### Shape of `from_yaml` results -/

theorem from_yaml_ok {fs : FS} {d : RawDoc} {a : Auction} {w : List String}
    (h : from_yaml fs d = .ok (a, w)) :
    resolve_description fs d = .ok (a.description, w) ∧
    a.title = d.title.getD (.str "") ∧
    a.override = truthy (d.override.getD (.bool false)) ∧
    a.photo_1 = d.photo_1.getD (.str "") ∧
    a.photo_2 = d.photo_2.getD .null ∧
    a.out_file = d.out_file.getD (.str "") := by
  unfold from_yaml at h
  cases hr : resolve_description fs d with
  | error e => rw [hr] at h; exact absurd h (by simp)
  | ok p =>
      obtain ⟨desc, warns⟩ := p
      rw [hr] at h
      simp only [Except.ok.injEq, Prod.mk.injEq] at h
      obtain ⟨ha, hw⟩ := h
      subst hw
      subst ha
      exact ⟨rfl, rfl, rfl, rfl, rfl, rfl⟩

theorem resolve_description_notFound {fs : FS} {d : RawDoc} {path : String} {t : Yaml}
    (hdesc : truthy (d.description.getD (Yaml.str "")) = false)
    (hfile : d.description_file = some (Yaml.str path))
    (hfs : fs path = ReadResult.notFound)
    (htitle : d.title = some t) :
    resolve_description fs d =
      .ok (.str (placeholder_for t),
           ["Warning: Could not find description file " ++ path]) := by
  unfold resolve_description
  rw [hfile, htitle]
  simp [hdesc, hfs]

theorem from_yaml_notFound {fs : FS} {d : RawDoc} {path : String} {t : Yaml}
    (hdesc : truthy (d.description.getD (Yaml.str "")) = false)
    (hfile : d.description_file = some (Yaml.str path))
    (hfs : fs path = ReadResult.notFound)
    (htitle : d.title = some t) :
    from_yaml fs d =
      .ok ({ title := t
           , description := .str (placeholder_for t)
           , override := truthy (d.override.getD (.bool false))
           , photo_1 := d.photo_1.getD (.str "")
           , photo_2 := d.photo_2.getD .null
           , out_file := d.out_file.getD (.str "") },
           ["Warning: Could not find description file " ++ path]) := by
  unfold from_yaml
  rw [resolve_description_notFound hdesc hfile hfs htitle, htitle]
  simp

theorem from_yaml_unreadable {fs : FS} {d : RawDoc} {path msg : String}
    (hdesc : truthy (d.description.getD (Yaml.str "")) = false)
    (hfile : d.description_file = some (Yaml.str path))
    (hfs : fs path = ReadResult.unreadable msg) :
    from_yaml fs d = .error (.osError msg, []) := by
  unfold from_yaml resolve_description
  rw [hfile]
  simp [hdesc, hfs]

theorem resolve_description_inline {fs : FS} {d : RawDoc}
    (h : (!truthy (d.description.getD (Yaml.str "")) && d.description_file.isSome) = false) :
    resolve_description fs d = .ok (d.description.getD (Yaml.str ""), []) := by
  unfold resolve_description
  rw [if_neg]
  rw [h]
  simp

theorem resolve_description_str_or_inline {fs : FS} {d : RawDoc} {desc : Yaml}
    {warns : List String}
    (h : resolve_description fs d = .ok (desc, warns)) :
    desc = d.description.getD (Yaml.str "") ∨ ∃ s, desc = Yaml.str s := by
  cases hc : (!truthy (d.description.getD (Yaml.str "")) && d.description_file.isSome) with
  | false =>
      rw [resolve_description_inline hc] at h
      simp only [Except.ok.injEq, Prod.mk.injEq] at h
      exact Or.inl h.1.symm
  | true =>
      rcases Bool.and_eq_true_iff.mp hc with ⟨hv, hsome⟩
      rcases Option.isSome_iff_exists.mp hsome with ⟨v, hdf⟩
      cases v with
      | str path =>
          cases hfs : fs path with
          | ok contents =>
              have heval : resolve_description fs d = .ok (.str contents, []) := by
                unfold resolve_description
                rw [hdf]
                simp [(by simpa using hv : truthy (d.description.getD (Yaml.str "")) = false), hfs]
              rw [heval] at h
              simp only [Except.ok.injEq, Prod.mk.injEq] at h
              exact Or.inr ⟨_, h.1.symm⟩
          | notFound =>
              cases htl : d.title with
              | some t =>
                  rw [resolve_description_notFound (by simpa using hv) hdf hfs htl] at h
                  simp only [Except.ok.injEq, Prod.mk.injEq] at h
                  exact Or.inr ⟨_, h.1.symm⟩
              | none =>
                  have heval : resolve_description fs d =
                      .error (.keyError "title",
                        ["Warning: Could not find description file " ++ path]) := by
                    unfold resolve_description
                    rw [hdf, htl]
                    simp [(by simpa using hv : truthy (d.description.getD (Yaml.str "")) = false), hfs]
                  rw [heval] at h
                  exact absurd h (by simp)
          | unreadable msg =>
              have heval : resolve_description fs d = .error (.osError msg, []) := by
                unfold resolve_description
                rw [hdf]
                simp [(by simpa using hv : truthy (d.description.getD (Yaml.str "")) = false), hfs]
              rw [heval] at h
              exact absurd h (by simp)
      | null =>
          have heval : resolve_description fs d =
              .error (.typeError ("argument should be a str, not " ++ pyStr Yaml.null), []) := by
            unfold resolve_description
            rw [hdf]
            simp [(by simpa using hv : truthy (d.description.getD (Yaml.str "")) = false)]
          rw [heval] at h
          exact absurd h (by simp)
      | bool b =>
          have heval : resolve_description fs d =
              .error (.typeError ("argument should be a str, not " ++ pyStr (Yaml.bool b)), []) := by
            unfold resolve_description
            rw [hdf]
            simp [(by simpa using hv : truthy (d.description.getD (Yaml.str "")) = false)]
          rw [heval] at h
          exact absurd h (by simp)
      | int n =>
          have heval : resolve_description fs d =
              .error (.typeError ("argument should be a str, not " ++ pyStr (Yaml.int n)), []) := by
            unfold resolve_description
            rw [hdf]
            simp [(by simpa using hv : truthy (d.description.getD (Yaml.str "")) = false)]
          rw [heval] at h
          exact absurd h (by simp)

theorem parse_auctions_file_append (fs : FS) (l1 l2 : List YamlDoc) :
    parse_auctions_file fs (l1 ++ l2) =
      ((parse_auctions_file fs l1).1 ++ (parse_auctions_file fs l2).1,
       (parse_auctions_file fs l1).2 ++ (parse_auctions_file fs l2).2) := by
  induction l1 with
  | nil => simp [parse_auctions_file]
  | cons d l ih => simp [parse_auctions_file, ih]

/-- Claim C2, counterexample: a mapping with a title key but neither a
`description` nor a `description_file` key constructs successfully with the
empty-string description — not the synthesized placeholder, which is a
different string. -/
theorem C2_counterexample :
    from_yaml fsNone docTitleOnly =
      .ok ({ title := .str "X", description := .str "", override := false
           , photo_1 := .str "", photo_2 := .null, out_file := .str "" }, []) ∧
    Yaml.str "" ≠ Yaml.str (placeholder_for (.str "X")) :=
  ⟨rfl, by decide⟩

/-- Claim C2 (amended): when the inline description is falsy, a
`description_file` key with a string path is present, the read of that path
raises `FileNotFoundError`, and a `title` key is present, the record
constructs with the synthesized placeholder (the title rendered verbatim
inside it) and a printed warning.  When the `description_file` key is absent
the description instead stays the empty-string default. -/
theorem C2_amended (fs : FS) (d : RawDoc) (path : String) (t : Yaml)
    (hdesc : truthy (d.description.getD (Yaml.str "")) = false)
    (hfile : d.description_file = some (Yaml.str path))
    (hfs : fs path = ReadResult.notFound)
    (htitle : d.title = some t) :
    ∃ a, from_yaml fs d =
        .ok (a, ["Warning: Could not find description file " ++ path]) ∧
      a.description = .str (placeholder_for t) ∧ a.title = t :=
  ⟨_, from_yaml_notFound hdesc hfile hfs htitle, rfl, rfl⟩

/-- Claim C2 witness: the amended theorem at the concrete mapping
`docWithFile` over the filesystem with no files. -/
theorem C2_amended_witness :
    ∃ a, from_yaml fsNone docWithFile =
        .ok (a, ["Warning: Could not find description file desc.txt"]) ∧
      a.description = .str (placeholder_for (.str "Lego Set")) ∧
      a.title = .str "Lego Set" :=
  C2_amended fsNone docWithFile "desc.txt" (.str "Lego Set") (by decide) rfl rfl rfl

/-- Claim C3, counterexample: with the description file present but
unreadable (a `PermissionError`, not `FileNotFoundError`), record
construction does not succeed — `from_yaml` raises instead of falling back
to the placeholder. -/
theorem C3_counterexample :
    from_yaml fsDenied docWithFile =
      .error (.osError "[Errno 13] Permission denied: \x27desc.txt\x27", []) := rfl

/-- Claim C3 (amended): only `FileNotFoundError` is recovered.  If the
description file is missing, the record still constructs, with the
placeholder description and a non-fatal printed warning.  If the read fails
for any other reason (an unreadable file), construction of that record
raises; the batch parser catches the exception and skips that document, so
the records produced for the other documents are unaffected. -/
theorem C3_amended (fs : FS) (d : RawDoc) (path : String) (t : Yaml) (msg : String)
    (hdesc : truthy (d.description.getD (Yaml.str "")) = false)
    (hfile : d.description_file = some (Yaml.str path))
    (htitle : d.title = some t) :
    (fs path = ReadResult.notFound →
      ∃ a, from_yaml fs d =
          .ok (a, ["Warning: Could not find description file " ++ path]) ∧
        a.description = .str (placeholder_for t)) ∧
    (fs path = ReadResult.unreadable msg →
      from_yaml fs d = .error (.osError msg, []) ∧
      ∀ docs1 docs2,
        (parse_auctions_file fs (docs1 ++ YamlDoc.mapping d :: docs2)).1 =
          (parse_auctions_file fs docs1).1 ++ (parse_auctions_file fs docs2).1) := by
  constructor
  · intro hfs
    exact ⟨_, from_yaml_notFound hdesc hfile hfs htitle, rfl⟩
  · intro hfs
    have herr := from_yaml_unreadable hdesc hfile hfs
    refine ⟨herr, ?_⟩
    intro docs1 docs2
    have hone : (parse_one fs (YamlDoc.mapping d)).1 = [] := by
      cases hdt : dictTruthy d
      · simp [parse_one, hdt]
      · simp [parse_one, hdt, herr]
    rw [parse_auctions_file_append]
    simp [parse_auctions_file, hone]

/-- Claim C3 witness: the amended theorem at the concrete mapping
`docWithFile` over a filesystem where every read raises `PermissionError`:
construction raises, and the surrounding documents still produce their
records. -/
theorem C3_amended_witness :
    from_yaml fsDenied docWithFile =
      .error (.osError "[Errno 13] Permission denied: \x27desc.txt\x27", []) ∧
    (parse_auctions_file fsDenied
        ([YamlDoc.mapping docBook] ++ YamlDoc.mapping docWithFile :: [YamlDoc.mapping docBook])).1 =
      (parse_auctions_file fsDenied [YamlDoc.mapping docBook]).1 ++
        (parse_auctions_file fsDenied [YamlDoc.mapping docBook]).1 := by
  have h := (C3_amended fsDenied docWithFile "desc.txt" (.str "Lego Set")
      "[Errno 13] Permission denied: \x27desc.txt\x27" (by decide) rfl rfl).2 rfl
  exact ⟨h.1, h.2 [YamlDoc.mapping docBook] [YamlDoc.mapping docBook]⟩

/-- Claim C4, counterexample: a mapping whose `title` key is present but
bound to null constructs successfully, yet the record's title is `None`
rather than a string — `dict.get` applies its default only when the key is
missing, not when it holds null. -/
theorem C4_counterexample :
    from_yaml fsNone docNullTitle =
      .ok ({ title := Yaml.null, description := .str "", override := false
           , photo_1 := .str "", photo_2 := .null, out_file := .str "" }, []) ∧
    isStrVal Yaml.null = false :=
  ⟨rfl, rfl⟩

/-- Claim C4 (amended): if every present `title`/`description` key is bound
to a string value, then a successfully constructed record has string-valued
`title` and `description`; a key explicitly bound to null (or any other
non-string) passes through unchanged, so the unconditional invariant fails. -/
theorem C4_amended (fs : FS) (d : RawDoc) (a : Auction) (w : List String)
    (h : from_yaml fs d = .ok (a, w))
    (ht : ∀ v, d.title = some v → isStrVal v = true)
    (hd : ∀ v, d.description = some v → isStrVal v = true) :
    isStrVal a.title = true ∧ isStrVal a.description = true := by
  obtain ⟨hres, hat, _, _, _, _⟩ := from_yaml_ok h
  constructor
  · rw [hat]
    cases htt : d.title with
    | none => rfl
    | some v => simpa using ht v htt
  · rcases resolve_description_str_or_inline hres with hin | ⟨s, hs⟩
    · rw [hin]
      cases hdd : d.description with
      | none => rfl
      | some v => simpa using hd v hdd
    · rw [hs]; rfl

/-- Claim C4 witness: the amended theorem at the concrete mapping `docBook`,
whose title and description keys hold strings. -/
theorem C4_amended_witness :
    isStrVal auctionOfBook.title = true ∧ isStrVal auctionOfBook.description = true :=
  C4_amended fsNone docBook auctionOfBook [] rfl
    (fun v hv => by cases hv; rfl) (fun v hv => by cases hv; rfl)

/-- Claim C8: the image reference resolver maps the empty string to the empty
string and every non-empty path `p` to exactly the fixed raw-URL prefix
followed by `p`.  As a Lean function the resolver is deterministic and free
of side effects by construction, so resolving the same input any number of
times yields identical output. -/
theorem C8_resolver_pure :
    get_github_raw_url (Yaml.str "") = "" ∧
    ∀ p : String, p ≠ "" →
      get_github_raw_url (Yaml.str p) =
        "https://raw.githubusercontent.com/rdapaz/ebay_listings/main/artefacts/" ++ p := by
  constructor
  · rfl
  · intro p hp
    unfold get_github_raw_url
    rw [if_pos (by simp [truthy, hp])]
    rfl

/-- Claim C8 witness: the resolver applied to the concrete path `x.jpg`. -/
theorem C8_resolver_pure_witness :
    get_github_raw_url (Yaml.str "x.jpg") =
      "https://raw.githubusercontent.com/rdapaz/ebay_listings/main/artefacts/" ++ "x.jpg" :=
  C8_resolver_pure.2 "x.jpg" (by decide)

/-- Claim C9: construction defaults — `title`, `photo_1` and `out_file`
default to the empty string when the key is absent; `override` defaults to
false when absent and is the truthiness coercion of any present value; and
`photo_2` defaults to `None` when the key is missing, which is distinct from
the empty string. -/
theorem C9_defaults (fs : FS) (d : RawDoc) (a : Auction) (w : List String)
    (h : from_yaml fs d = .ok (a, w)) :
    (d.title = none → a.title = .str "") ∧
    (d.photo_1 = none → a.photo_1 = .str "") ∧
    (d.out_file = none → a.out_file = .str "") ∧
    (d.override = none → a.override = false) ∧
    (∀ v, d.override = some v → a.override = truthy v) ∧
    (d.photo_2 = none → a.photo_2 = Yaml.null ∧ Yaml.null ≠ Yaml.str "") := by
  obtain ⟨_, hat, hov, hp1, hp2, hof⟩ := from_yaml_ok h
  refine ⟨?_, ?_, ?_, ?_, ?_, ?_⟩
  · intro hn; rw [hat, hn]; rfl
  · intro hn; rw [hp1, hn]; rfl
  · intro hn; rw [hof, hn]; rfl
  · intro hn; rw [hov, hn]; rfl
  · intro v hv; rw [hov, hv]; rfl
  · intro hn; rw [hp2, hn]; exact ⟨rfl, by decide⟩

/-- Claim C9 witness: the empty mapping constructs into the all-defaults
record over the empty filesystem. -/
theorem C9_defaults_witness :
    (({} : RawDoc).title = none → auctionDefaults.title = .str "") ∧
    (({} : RawDoc).photo_1 = none → auctionDefaults.photo_1 = .str "") ∧
    (({} : RawDoc).out_file = none → auctionDefaults.out_file = .str "") ∧
    (({} : RawDoc).override = none → auctionDefaults.override = false) ∧
    (∀ v, ({} : RawDoc).override = some v → auctionDefaults.override = truthy v) ∧
    (({} : RawDoc).photo_2 = none →
      auctionDefaults.photo_2 = Yaml.null ∧ Yaml.null ≠ Yaml.str "") :=
  C9_defaults fsNone {} auctionDefaults [] rfl

theorem markdown_content_empty_photo2 (a : Auction) (ha : a.photo_2 = Yaml.str "") :
    markdown_content a = markdown_content { a with photo_2 := Yaml.null } := by
  unfold markdown_content
  rw [ha]
  rfl

theorem generate_html_empty_photo2 (c : Collab) (a : Auction) (ha : a.photo_2 = Yaml.str "") :
    generate_html c a = generate_html c { a with photo_2 := Yaml.null } := by
  unfold generate_html
  rw [markdown_content_empty_photo2 a ha]

/-- Claim C10: a present-but-empty `photo_2` and an absent (`None`) `photo_2`
are observationally equivalent in all output: the image markup, the rendered
markdown and the final document generation agree; and over the
`Optional[str]` domain of the field a secondary image reference is emitted
exactly when `photo_2` is a non-empty string. -/
theorem C10_photo2_empty_equiv_absent :
    (∀ p1 : Yaml, generate_image_html p1 (Yaml.str "") = generate_image_html p1 Yaml.null) ∧
    (∀ a : Auction, a.photo_2 = Yaml.str "" →
      markdown_content a = markdown_content { a with photo_2 := Yaml.null }) ∧
    (∀ c : Collab, ∀ a : Auction, a.photo_2 = Yaml.str "" →
      generate_html c a = generate_html c { a with photo_2 := Yaml.null }) ∧
    (∀ p1 p2 : Yaml, (p2 = Yaml.null ∨ ∃ s, p2 = Yaml.str s) →
      ((image_entries p1 p2).length = 2 ↔ ∃ s, p2 = Yaml.str s ∧ s ≠ "")) := by
  refine ⟨fun _ => rfl, markdown_content_empty_photo2, generate_html_empty_photo2, ?_⟩
  intro p1 p2 hp2
  constructor
  · intro hlen
    rcases hp2 with h0 | ⟨s, hs⟩
    · subst h0
      exfalso
      revert hlen
      have h2 : truthy Yaml.null = false := rfl
      cases htr : truthy p1 <;> simp [image_entries, htr, h2]
    · subst hs
      by_cases hse : s = ""
      · subst hse
        exfalso
        revert hlen
        have h2 : truthy (Yaml.str "") = false := rfl
        cases htr : truthy p1 <;> simp [image_entries, htr, h2]
      · exact ⟨s, rfl, hse⟩
  · rintro ⟨s, hs, hse⟩
    subst hs
    have hst : truthy (Yaml.str s) = true := by simp [truthy, hse]
    cases htr : truthy p1 <;> simp [image_entries, htr, hst]

/-- Claim C10 witness: two concrete non-empty image paths yield two image
entries. -/
theorem C10_witness :
    (image_entries (Yaml.str "a.jpg") (Yaml.str "b.jpg")).length = 2 :=
  (C10_photo2_empty_equiv_absent.2.2.2 (Yaml.str "a.jpg") (Yaml.str "b.jpg")
      (Or.inr ⟨"b.jpg", rfl⟩)).mpr ⟨"b.jpg", rfl, by decide⟩

theorem process_all_append (c : Collab) (outdir : String) (l1 l2 : List Auction)
    (h : (process_all c outdir l1).crash = none) :
    process_all c outdir (l1 ++ l2) =
      ⟨(process_all c outdir l1).written ++ (process_all c outdir l2).written,
       (process_all c outdir l1).log ++ (process_all c outdir l2).log,
       (process_all c outdir l2).crash⟩ := by
  induction l1 with
  | nil => simp [process_all]
  | cons b l ih =>
      cases hb : process_auction c outdir b with
      | error e =>
          exfalso
          simp [process_all, hb] at h
      | ok p =>
          obtain ⟨w, lg⟩ := p
          have h' : (process_all c outdir l).crash = none := by
            simpa [process_all, hb] using h
          simp [process_all, hb, ih h', List.append_assoc]

theorem process_auction_fail {c : Collab} {outdir : String} {a : Auction} {f : String}
    (hof : a.out_file = Yaml.str f)
    (hfail :
      (∃ e, generate_html c a = .error e) ∨
      (∃ html tlog e, generate_html c a = .ok (html, tlog) ∧
        c.write (joinPath outdir f) html = .error e)) :
    ∃ l, process_auction c outdir a = .ok ([], l) ∧
      ∃ e, ("Error writing output file " ++ joinPath outdir f ++ ": " ++ e) ∈ l := by
  rcases hfail with ⟨e, he⟩ | ⟨html, tlog, e, hok, hw⟩
  · exact ⟨["Error writing output file " ++ joinPath outdir f ++ ": " ++ e],
      by simp [process_auction, hof, he], e, by simp⟩
  · exact ⟨tlog ++ ["Error writing output file " ++ joinPath outdir f ++ ": " ++ e],
      by simp [process_auction, hof, hok, hw], e, by simp⟩

/-- The uncaught `TypeError` path: a record whose `out_file` is not a string
aborts the output loop at the path computation, before its `try`; nothing is
written for it or for any later record. -/
theorem process_all_aborts_on_int_out_file (c : Collab) (outdir : String)
    (rest : List Auction) :
    process_all c outdir ({ auctionDefaults with out_file := Yaml.int 5 } :: rest) =
      ⟨[], [], some "unsupported operand type(s) for /: \x27PosixPath\x27 and \x27int\x27"⟩ :=
  rfl

/-- Claim C5: a batch consisting of one malformed document (one whose parse
step logs a single error and yields no record) followed by one valid
document logs exactly that one error, skips only the malformed document, and
writes exactly the valid record's output file; no exception from a
document's construction reaches the top level (the valid record's `out_file`
is a string, so the loop's untried path computation cannot raise either, and
the run finishes with no uncaught exception). -/
theorem C5_malformed_then_valid (fs : FS) (c : Collab) (fname outdir m : String)
    (bad : YamlDoc) (dgood : RawDoc) (a : Auction) (html f : String) (tlog : List String)
    (hbad : parse_one fs bad = ([], ["Error parsing auction entry: " ++ m]))
    (hgoodT : dictTruthy dgood = true)
    (hgood : from_yaml fs dgood = .ok (a, []))
    (hof : a.out_file = Yaml.str f)
    (hgen : generate_html c a = .ok (html, tlog))
    (hw : c.write (joinPath outdir f) html = .ok ()) :
    parse_auctions_file fs [bad, .mapping dgood] =
      ([a], ["Error parsing auction entry: " ++ m]) ∧
    (main_run fs c fname outdir (.ok [bad, .mapping dgood])).written =
      [(joinPath outdir f, html)] ∧
    (main_run fs c fname outdir (.ok [bad, .mapping dgood])).crash = none := by
  have hgoodOne : parse_one fs (YamlDoc.mapping dgood) = ([a], []) := by
    simp [parse_one, hgoodT, hgood]
  have hparse : parse_auctions_file fs [bad, .mapping dgood] =
      ([a], ["Error parsing auction entry: " ++ m]) := by
    simp [parse_auctions_file, hbad, hgoodOne]
  have hloop : process_all c outdir [a] =
      ⟨[(joinPath outdir f, html)],
       tlog ++ ["Generated auction HTML: " ++ joinPath outdir f], none⟩ := by
    simp [process_all, process_auction, hof, hgen, hw]
  refine ⟨hparse, ?_, ?_⟩
  · simp only [main_run]
    rw [hparse]
    simp [hloop]
  · simp only [main_run]
    rw [hparse]
    simp [hloop]

/-- Claim C5 witness: the concrete batch of a scalar document followed by
`docBook`, over collaborators that never fail. -/
theorem C5_witness :
    parse_auctions_file fsNone [docScalar, .mapping docBook] =
      ([auctionOfBook],
       ["Error parsing auction entry: \x27str\x27 object has no attribute \x27get\x27"]) ∧
    (main_run fsNone collabOk "auctions.yml" "out" (.ok [docScalar, .mapping docBook])).written =
      [(joinPath "out" "book.html",
        html_shell (pyStr auctionOfBook.title) (markdown_content auctionOfBook))] ∧
    (main_run fsNone collabOk "auctions.yml" "out" (.ok [docScalar, .mapping docBook])).crash =
      none :=
  C5_malformed_then_valid fsNone collabOk "auctions.yml" "out"
    "\x27str\x27 object has no attribute \x27get\x27" docScalar docBook auctionOfBook
    (html_shell (pyStr auctionOfBook.title) (markdown_content auctionOfBook)) "book.html" []
    rfl rfl rfl rfl rfl rfl

/-- Claim C6: per-record isolation in the output loop — when the render,
assemble, or write step for a record (one whose `out_file` is a string, so
its untried path computation succeeds) raises, the loop logs an error naming
that record's output path and carries on: provided the records before it did
not themselves abort the loop, the files written for the whole batch are
exactly those of the other records, in order, and the loop's final outcome
(completion or a later crash) is exactly that of the records after it.  One
record's render/assemble/write failure never prevents earlier or later
records' files from being written. -/
theorem C6_per_record_isolation (c : Collab) (outdir : String)
    (pre post : List Auction) (a : Auction) (f : String)
    (hpre : (process_all c outdir pre).crash = none)
    (hof : a.out_file = Yaml.str f)
    (hfail :
      (∃ e, generate_html c a = .error e) ∨
      (∃ html tlog e, generate_html c a = .ok (html, tlog) ∧
        c.write (joinPath outdir f) html = .error e)) :
    (process_all c outdir (pre ++ a :: post)).written =
      (process_all c outdir pre).written ++ (process_all c outdir post).written ∧
    (process_all c outdir (pre ++ a :: post)).crash =
      (process_all c outdir post).crash ∧
    ∃ e, ("Error writing output file " ++ joinPath outdir f ++ ": " ++ e)
        ∈ (process_all c outdir (pre ++ a :: post)).log := by
  obtain ⟨l, hok, e, hmem⟩ := process_auction_fail hof hfail
  have hsplit := process_all_append c outdir pre (a :: post) hpre
  refine ⟨?_, ?_, e, ?_⟩
  · rw [hsplit]
    simp [process_all, hok]
  · rw [hsplit]
    simp [process_all, hok]
  · rw [hsplit]
    simp only [process_all, hok, List.mem_append]
    exact Or.inr (Or.inl hmem)

/-- Claim C6 witness: with a write that fails exactly on `out/fail.html`,
the record `auctionFail` is skipped with a logged error while `auctionOk1`
and `auctionOk2` are unaffected and the loop completes. -/
theorem C6_witness :
    (process_all collabFailWrite "out" ([auctionOk1] ++ auctionFail :: [auctionOk2])).written =
      (process_all collabFailWrite "out" [auctionOk1]).written ++
        (process_all collabFailWrite "out" [auctionOk2]).written ∧
    (process_all collabFailWrite "out" ([auctionOk1] ++ auctionFail :: [auctionOk2])).crash =
      (process_all collabFailWrite "out" [auctionOk2]).crash ∧
    ∃ e, ("Error writing output file " ++ joinPath "out" "fail.html" ++ ": " ++ e)
        ∈ (process_all collabFailWrite "out" ([auctionOk1] ++ auctionFail :: [auctionOk2])).log :=
  C6_per_record_isolation collabFailWrite "out" [auctionOk1] [auctionOk2] auctionFail
    "fail.html" rfl rfl
    (Or.inr ⟨html_shell (pyStr auctionFail.title) "", [], "disk full", rfl, rfl⟩)

/-- Claim C7: when the input auctions file cannot be opened — missing or
unreadable — the run reports the error to the user and terminates normally
with no output file written and no per-record processing. -/
theorem C7_input_file_error (fs : FS) (c : Collab) (fname outdir m : String) :
    main_run fs c fname outdir .notFound =
      ⟨[], ["Error: Auctions data file \x27" ++ fname ++ "\x27 not found"], none⟩ ∧
    main_run fs c fname outdir (.otherError m) =
      ⟨[], ["Error reading auctions file: " ++ m], none⟩ :=
  ⟨rfl, rfl⟩
